import Mathlib

/-!
Verification of the `msg_handler` package of the wheelchock communication
system: the pydantic message schemas (`src/msg_handler/schemas.py`), the
publisher base classes (`src/msg_handler/pub_base.py`), the ZeroMQ
publisher/subscriber adapters (`src/msg_handler/backends/pub_zmq.py`,
`src/msg_handler/backends/sub_zmq.py`) and the factories
(`src/msg_handler/pub_factory.py`, `src/msg_handler/sub_factory.py`).

The wire format is JSON; we embed JSON values as an inductive `Json` type
(the frame is the parsed JSON document; textual JSON lexing is external to
the repository, done by pydantic).  Timestamps, however, are rendered and
parsed *as strings* by the code under verification, so those are modelled
at character-list level, including zero-padded decimal rendering and
parsing.  Stateful adapter code is modelled as explicit state-passing
functions that additionally return the ordered list of transport/logging
effects they perform.
-/

namespace WheelChock

/-! ## Decimal digit rendering and parsing

`datetime.strftime("%Y-%m-%d %H:%M")` and Python's `isoformat` render each
timestamp component as a zero-padded decimal number; pydantic (speedate)
parses them back.  We model both directions over `List Char`. -/

/-- Character for a single decimal digit value (values ≥ 9 clamp to '9';
only values < 10 ever arise). -/
def digitChar (d : Nat) : Char :=
  match d with
  | 0 => '0' | 1 => '1' | 2 => '2' | 3 => '3' | 4 => '4'
  | 5 => '5' | 6 => '6' | 7 => '7' | 8 => '8' | _ => '9'

/-- Numeric value of a decimal digit character, `none` for non-digits. -/
def digitVal (c : Char) : Option Nat :=
  if 48 ≤ c.toNat ∧ c.toNat ≤ 57 then some (c.toNat - 48) else none

/-- Little-endian decimal digits of `n`, with fuel for structural
recursion (fuel `n` suffices). -/
def natDigitsAux : Nat → Nat → List Nat
  | 0, _ => []
  | fuel + 1, n => if n = 0 then [] else n % 10 :: natDigitsAux fuel (n / 10)

/-- Little-endian decimal digits of `n` (empty for 0). -/
def natDigits (n : Nat) : List Nat := natDigitsAux n n

/-- Value of a little-endian digit list. -/
def valOfDigits : List Nat → Nat
  | [] => 0
  | d :: ds => d + 10 * valOfDigits ds

/-- Big-endian digit list of `n`, left-padded with zeros to width `w`. -/
def padDigits (w n : Nat) : List Nat :=
  List.replicate (w - (natDigits n).reverse.length) 0 ++ (natDigits n).reverse

/-- Characters of `n` rendered as a zero-padded decimal of width `w`
(wider when `n` needs more digits).  Models `"%02d"`-style formatting. -/
def padChars (w n : Nat) : List Char := (padDigits w n).map digitChar

/-- Big-endian value of a digit list. -/
def bvalDigits (ds : List Nat) : Nat := ds.foldl (fun a d => 10 * a + d) 0

/-- Parser accumulator over decimal digit characters. -/
def parseDigitsAux : List Char → Nat → Option Nat
  | [], acc => some acc
  | c :: cs, acc =>
    match digitVal c with
    | some d => parseDigitsAux cs (10 * acc + d)
    | none => none

/-- Parse a non-empty all-digit character list as a natural number. -/
def parseNatChars (cs : List Char) : Option Nat :=
  match cs with
  | [] => none
  | _ :: _ => parseDigitsAux cs 0

/-! ## Splitting character lists -/

/-- Split at the first character satisfying `p`: returns the part before
it and the part after it (the separator is dropped), or `none` when no
character satisfies `p`.  Models Python's `s.split(sep, 1)` (for a
one-character separator) and the date/time separator search. -/
def splitFirst (p : Char → Bool) : List Char → Option (List Char × List Char)
  | [] => none
  | c :: cs =>
    if p c then some ([], cs)
    else
      match splitFirst p cs with
      | some (a, b) => some (c :: a, b)
      | none => none

/-- Split on every occurrence of `sep` (separator dropped); always returns
a non-empty list of parts.  Models Python's `s.split(sep)`. -/
def splitOnChar (sep : Char) : List Char → List (List Char)
  | [] => [[]]
  | c :: cs =>
    match splitOnChar sep cs with
    | [] => [[]]
    | h :: t => if c = sep then [] :: h :: t else (c :: h) :: t

/-! ## Timestamps

Python `datetime` values, modelled to second precision (sub-second
precision plays no role in the verified properties: the minute-truncating
serializer drops everything below the minute, and the default serializer
is modelled for whole-second instants). -/

structure DateTime where
  year : Nat
  month : Nat
  day : Nat
  hour : Nat
  minute : Nat
  second : Nat
deriving DecidableEq, Repr

/-- Field ranges enforced by Python's `datetime` constructor (days
coarsened to 1..31; per-month day counts do not matter here). -/
def ValidDateTime (dt : DateTime) : Prop :=
  dt.year ≤ 9999 ∧ 1 ≤ dt.month ∧ dt.month ≤ 12 ∧ 1 ≤ dt.day ∧ dt.day ≤ 31 ∧
    dt.hour ≤ 23 ∧ dt.minute ≤ 59 ∧ dt.second ≤ 59

instance (dt : DateTime) : Decidable (ValidDateTime dt) := by
  unfold ValidDateTime; infer_instance

/-- Timestamp with the seconds dropped: the information kept by the
`"%Y-%m-%d %H:%M"` serialization. -/
def truncToMinute (dt : DateTime) : DateTime := { dt with second := 0 }

/-- Characters of `dt.strftime("%Y-%m-%d %H:%M")` — the serializer that
`SensorMessage.serialize_timestamp` applies to the `timestamp` field. -/
def renderTimestampMinute (dt : DateTime) : List Char :=
  padChars 4 dt.year ++ '-' :: (padChars 2 dt.month ++ '-' :: (padChars 2 dt.day ++
    ' ' :: (padChars 2 dt.hour ++ ':' :: padChars 2 dt.minute)))

/-- Characters of pydantic's default JSON serialization of a `datetime`
(`isoformat`): `YYYY-MM-DDTHH:MM:SS` for whole-second instants.  This is
what `DisplayMessage` and `MotorMessage`, which declare no timestamp
serializer, emit. -/
def renderTimestampIso (dt : DateTime) : List Char :=
  padChars 4 dt.year ++ '-' :: (padChars 2 dt.month ++ '-' :: (padChars 2 dt.day ++
    'T' :: (padChars 2 dt.hour ++ ':' :: (padChars 2 dt.minute ++
      ':' :: padChars 2 dt.second))))

/-- Range check performed by pydantic's datetime parser (speedate);
day counts coarsened to 31 as in `ValidDateTime`. -/
def mkCheckedDateTime (y mo d h mi s : Nat) : Option DateTime :=
  if 1 ≤ mo ∧ mo ≤ 12 ∧ 1 ≤ d ∧ d ≤ 31 ∧ h ≤ 23 ∧ mi ≤ 59 ∧ s ≤ 59 then
    some ⟨y, mo, d, h, mi, s⟩
  else none

/-- Parse the timestamp strings pydantic accepts on this wire: a date
`YYYY-MM-DD`, a `T` or space separator, and a time `HH:MM` or `HH:MM:SS`.
Used for the `timestamp` field of every message kind. -/
def parseTimestampChars (cs : List Char) : Option DateTime :=
  match splitFirst (fun c => c = 'T' || c = ' ') cs with
  | none => none
  | some (datePart, timePart) =>
    match splitOnChar '-' datePart with
    | [ys, ms, ds] =>
      match parseNatChars ys, parseNatChars ms, parseNatChars ds with
      | some y, some mo, some d =>
        match splitOnChar ':' timePart with
        | [hs, mins] =>
          match parseNatChars hs, parseNatChars mins with
          | some h, some mi => mkCheckedDateTime y mo d h mi 0
          | _, _ => none
        | [hs, mins, secs] =>
          match parseNatChars hs, parseNatChars mins, parseNatChars secs with
          | some h, some mi, some s => mkCheckedDateTime y mo d h mi s
          | _, _, _ => none
        | _ => none
      | _, _, _ => none
    | _ => none

/-- The date part `YYYY-MM-DD` of both rendered forms. -/
def renderDatePart (dt : DateTime) : List Char :=
  padChars 4 dt.year ++ '-' :: (padChars 2 dt.month ++ '-' :: padChars 2 dt.day)

/-! ## JSON values

The wire frame, after JSON lexing (done by pydantic, outside this
repository).  Numbers are modelled as exact rationals: Python ints map to
integral rationals and the only float field round-trips through Python's
shortest-exact `repr`. -/

inductive Json where
  | null : Json
  | bool (b : Bool) : Json
  | num (q : ℚ) : Json
  | str (s : String) : Json
  | obj (fields : List (String × Json)) : Json

/-- First binding of key `k` in a JSON object's field list. -/
def lookupField (k : String) : List (String × Json) → Option Json
  | [] => none
  | (k', v) :: rest => if k' = k then some v else lookupField k rest

/-! ## Message schemas (`src/msg_handler/schemas.py`)

Each pydantic `BaseModel` becomes a structure; `model_dump_json`
becomes an `encode…` function producing a `Json` value and
`TypeAdapter.validate_json` becomes a `validate…` function consuming
one.  Union fields (`payload`, and the `SupportedMessage` union) are
resolved in declared order, first structural match wins, which is both
what the module's docstrings state and what pydantic's union resolution
does for these schemas (all candidates are `BaseModel`s validated from a
JSON object, so the leftmost success is kept). -/

structure SensorPayload where
  isThereHuman : Bool
  human_exist_possibility : Option ℚ
  sensor_status : String
  sensor_status_code : Int
deriving DecidableEq, Repr

structure HeartBeatPayload where
  status : String
  status_code : Int
deriving DecidableEq, Repr

/-- The `SensorPayload | HeartBeatPayload` union of
`SensorMessage.payload`. -/
inductive Payload where
  | sensor (p : SensorPayload) : Payload
  | heartbeat (p : HeartBeatPayload) : Payload
deriving DecidableEq, Repr

structure SensorMessage where
  sender_id : String
  sender_name : Option String
  timestamp : DateTime
  data_type : String
  payload : Payload
  sequence_no : Int
deriving DecidableEq, Repr

structure SensorDisplayMode where
  sensor_name : String
  is_there_human : Bool
  human_exist_possibility : Option ℚ
deriving DecidableEq, Repr

structure DisplayMessage where
  sender_id : String
  timestamp : DateTime
  is_override_mode : Bool
  sensor_display_dict : List (String × SensorDisplayMode)
  moter_mode : String
deriving DecidableEq, Repr

structure MotorMessage where
  sender_id : String
  timestamp : DateTime
  is_override_mode : Bool
  ordered_mode : String
deriving DecidableEq, Repr

/-- The `SupportedMessage` union `SensorMessage | DisplayMessage |
MotorMessage`. -/
inductive SupportedMessage where
  | sensor (m : SensorMessage) : SupportedMessage
  | display (m : DisplayMessage) : SupportedMessage
  | motor (m : MotorMessage) : SupportedMessage
deriving DecidableEq, Repr

/-- The `expected_type` argument of `parse_message_json`. -/
inductive ExpectedMessageType where
  | auto | sensor | display | motor
deriving DecidableEq, Repr

/-- Constraint `Field(ge=0.0, le=100.0)` on `human_exist_possibility`,
enforced by pydantic when the model instance is constructed. -/
def hepInRange : Option ℚ → Prop
  | none => True
  | some q => 0 ≤ q ∧ q ≤ 100

instance (o : Option ℚ) : Decidable (hepInRange o) :=
  match o with
  | none => inferInstanceAs (Decidable True)
  | some _ => inferInstanceAs (Decidable (_ ∧ _))

/-- A `SensorPayload` value as pydantic admits it at construction. -/
def SensorPayload.WF (p : SensorPayload) : Prop :=
  hepInRange p.human_exist_possibility

/-- A `Payload` value as pydantic admits it at construction. -/
def Payload.WF : Payload → Prop
  | .sensor p => p.WF
  | .heartbeat _ => True

/-! ### Encoding (`model_dump_json`) -/

def encodeOptNum : Option ℚ → Json
  | none => Json.null
  | some q => Json.num q

def encodeOptStr : Option String → Json
  | none => Json.null
  | some s => Json.str s

def encodeSensorPayload (p : SensorPayload) : Json :=
  Json.obj
    [("isThereHuman", Json.bool p.isThereHuman),
     ("human_exist_possibility", encodeOptNum p.human_exist_possibility),
     ("sensor_status", Json.str p.sensor_status),
     ("sensor_status_code", Json.num (p.sensor_status_code : ℚ))]

def encodeHeartBeatPayload (p : HeartBeatPayload) : Json :=
  Json.obj
    [("status", Json.str p.status),
     ("status_code", Json.num (p.status_code : ℚ))]

def encodePayload : Payload → Json
  | .sensor p => encodeSensorPayload p
  | .heartbeat p => encodeHeartBeatPayload p

/-- `SensorMessage.model_dump_json`: all fields in declared order, the
timestamp rendered by the `@field_serializer` as `"%Y-%m-%d %H:%M"`. -/
def encodeSensorMessage (m : SensorMessage) : Json :=
  Json.obj
    [("sender_id", Json.str m.sender_id),
     ("sender_name", encodeOptStr m.sender_name),
     ("timestamp", Json.str (String.mk (renderTimestampMinute m.timestamp))),
     ("data_type", Json.str m.data_type),
     ("payload", encodePayload m.payload),
     ("sequence_no", Json.num (m.sequence_no : ℚ))]

def encodeSensorDisplayMode (m : SensorDisplayMode) : Json :=
  Json.obj
    [("sensor_name", Json.str m.sensor_name),
     ("is_there_human", Json.bool m.is_there_human),
     ("human_exist_possibility", encodeOptNum m.human_exist_possibility)]

/-- `DisplayMessage.model_dump_json`: no timestamp serializer is declared,
so pydantic's default ISO rendering applies. -/
def encodeDisplayMessage (m : DisplayMessage) : Json :=
  Json.obj
    [("sender_id", Json.str m.sender_id),
     ("timestamp", Json.str (String.mk (renderTimestampIso m.timestamp))),
     ("is_override_mode", Json.bool m.is_override_mode),
     ("sensor_display_dict",
       Json.obj (m.sensor_display_dict.map
         (fun kv => (kv.1, encodeSensorDisplayMode kv.2)))),
     ("moter_mode", Json.str m.moter_mode)]

/-- `MotorMessage.model_dump_json`: default ISO timestamp rendering, as
for `DisplayMessage`. -/
def encodeMotorMessage (m : MotorMessage) : Json :=
  Json.obj
    [("sender_id", Json.str m.sender_id),
     ("timestamp", Json.str (String.mk (renderTimestampIso m.timestamp))),
     ("is_override_mode", Json.bool m.is_override_mode),
     ("ordered_mode", Json.str m.ordered_mode)]

def encodeMessage : SupportedMessage → Json
  | .sensor m => encodeSensorMessage m
  | .display m => encodeDisplayMessage m
  | .motor m => encodeMotorMessage m

/-! ### Validation (`TypeAdapter.validate_json`)

Validators take the parsed JSON value; unknown extra fields are ignored
(pydantic's default), missing required fields and type mismatches are
errors, fields with defaults fall back to them.  `timestamp` has
`default_factory=datetime.now`, so validation is parametrised by the
wall-clock value `now` that pydantic would insert for an absent
timestamp. -/

def asObj : Json → Except String (List (String × Json))
  | .obj fs => .ok fs
  | _ => .error "expected a JSON object"

def reqField (fs : List (String × Json)) (k : String) : Except String Json :=
  match lookupField k fs with
  | some v => .ok v
  | none => .error ("missing required field " ++ k)

def vStr : Json → Except String String
  | .str s => .ok s
  | _ => .error "expected a string"

def vBool : Json → Except String Bool
  | .bool b => .ok b
  | _ => .error "expected a bool"

def vInt : Json → Except String Int
  | .num q => if q.den = 1 then .ok q.num else .error "expected an integer"
  | _ => .error "expected an integer"

def vDateTime : Json → Except String DateTime
  | .str s =>
    match parseTimestampChars s.data with
    | some dt => .ok dt
    | none => .error "invalid datetime"
  | _ => .error "expected a datetime string"

def vOptStr : Json → Except String (Option String)
  | .null => .ok none
  | .str s => .ok (some s)
  | _ => .error "expected a string or null"

/-- Validate `human_exist_possibility`: optional, defaults to `None`,
constrained to [0, 100]. -/
def vHep (fs : List (String × Json)) : Except String (Option ℚ) :=
  match lookupField "human_exist_possibility" fs with
  | none => .ok none
  | some .null => .ok none
  | some (.num q) =>
    if 0 ≤ q ∧ q ≤ 100 then .ok (some q)
    else .error "human_exist_possibility out of range"
  | some _ => .error "expected a number or null"

/-- Validate `timestamp` with its `default_factory=datetime.now`. -/
def vTimestampField (now : DateTime) (fs : List (String × Json)) :
    Except String DateTime :=
  match lookupField "timestamp" fs with
  | none => .ok now
  | some v => vDateTime v

/-- Validate `sequence_no` with its declared default `0`. -/
def vSeqNoField (fs : List (String × Json)) : Except String Int :=
  match lookupField "sequence_no" fs with
  | none => .ok 0
  | some v => vInt v

def validateSensorPayload (j : Json) : Except String SensorPayload := do
  let fs ← asObj j
  let ith ← vBool (← reqField fs "isThereHuman")
  let hep ← vHep fs
  let st ← vStr (← reqField fs "sensor_status")
  let sc ← vInt (← reqField fs "sensor_status_code")
  return ⟨ith, hep, st, sc⟩

def validateHeartBeatPayload (j : Json) : Except String HeartBeatPayload := do
  let fs ← asObj j
  let st ← vStr (← reqField fs "status")
  let sc ← vInt (← reqField fs "status_code")
  return ⟨st, sc⟩

/-- The `SensorPayload | HeartBeatPayload` union validator: declared
order, first structural match wins. -/
def validatePayload (j : Json) : Except String Payload :=
  match validateSensorPayload j with
  | .ok p => .ok (.sensor p)
  | .error _ =>
    match validateHeartBeatPayload j with
    | .ok p => .ok (.heartbeat p)
    | .error e => .error e

def validateSensorMessage (now : DateTime) (j : Json) :
    Except String SensorMessage := do
  let fs ← asObj j
  let sid ← vStr (← reqField fs "sender_id")
  let sname ← vOptStr (← reqField fs "sender_name")
  let ts ← vTimestampField now fs
  let dty ← vStr (← reqField fs "data_type")
  let pl ← validatePayload (← reqField fs "payload")
  let sq ← vSeqNoField fs
  return ⟨sid, sname, ts, dty, pl, sq⟩

def validateSensorDisplayMode (j : Json) : Except String SensorDisplayMode := do
  let fs ← asObj j
  let sn ← vStr (← reqField fs "sensor_name")
  let ith ← vBool (← reqField fs "is_there_human")
  let hep ← vHep fs
  return ⟨sn, ith, hep⟩

def validateSdmEntries :
    List (String × Json) → Except String (List (String × SensorDisplayMode))
  | [] => .ok []
  | (k, v) :: rest => do
    let m ← validateSensorDisplayMode v
    let r ← validateSdmEntries rest
    return (k, m) :: r

/-- Validate `sensor_display_dict`: `dict[str, SensorDisplayMode]` with
default `{}`. -/
def vSdmDict (fs : List (String × Json)) :
    Except String (List (String × SensorDisplayMode)) :=
  match lookupField "sensor_display_dict" fs with
  | none => .ok []
  | some (.obj entries) => validateSdmEntries entries
  | some _ => .error "expected an object"

def validateDisplayMessage (now : DateTime) (j : Json) :
    Except String DisplayMessage := do
  let fs ← asObj j
  let sid ← vStr (← reqField fs "sender_id")
  let ts ← vTimestampField now fs
  let ovr ← vBool (← reqField fs "is_override_mode")
  let sdd ← vSdmDict fs
  let mm ← vStr (← reqField fs "moter_mode")
  return ⟨sid, ts, ovr, sdd, mm⟩

def validateMotorMessage (now : DateTime) (j : Json) :
    Except String MotorMessage := do
  let fs ← asObj j
  let sid ← vStr (← reqField fs "sender_id")
  let ts ← vTimestampField now fs
  let ovr ← vBool (← reqField fs "is_override_mode")
  let om ← vStr (← reqField fs "ordered_mode")
  return ⟨sid, ts, ovr, om⟩

/-- `parse_message_json(json_str, expected_type)`: with
`expected_type="auto"` the `SupportedMessage` union is tried in declared
order (Sensor, Display, Motor), first structural match wins; an explicit
kind validates against that kind only. -/
def parse_message_json (now : DateTime) (j : Json)
    (expected : ExpectedMessageType) : Except String SupportedMessage :=
  match expected with
  | .auto =>
    match validateSensorMessage now j with
    | .ok m => .ok (.sensor m)
    | .error _ =>
      match validateDisplayMessage now j with
      | .ok m => .ok (.display m)
      | .error _ =>
        match validateMotorMessage now j with
        | .ok m => .ok (.motor m)
        | .error e => .error e
  | .sensor => (validateSensorMessage now j).map .sensor
  | .display => (validateDisplayMessage now j).map .display
  | .motor => (validateMotorMessage now j).map .motor

/-! ### Well-formedness of constructed messages

Pydantic validates field constraints when a model instance is built, so
"a valid envelope" means one whose constrained fields are in range and
whose timestamp is one Python's `datetime` can hold. -/

/-- A `SensorMessage` as constructed through pydantic. -/
def SensorMessage.WF (m : SensorMessage) : Prop :=
  ValidDateTime m.timestamp ∧ m.payload.WF

/-- A `DisplayMessage` as constructed through pydantic. -/
def DisplayMessage.WF (m : DisplayMessage) : Prop :=
  ValidDateTime m.timestamp ∧
    ∀ kv ∈ m.sensor_display_dict, hepInRange kv.2.human_exist_possibility

/-- A `MotorMessage` as constructed through pydantic. -/
def MotorMessage.WF (m : MotorMessage) : Prop := ValidDateTime m.timestamp

/-- A `SupportedMessage` as constructed through pydantic. -/
def SupportedMessage.WF : SupportedMessage → Prop
  | .sensor m => m.WF
  | .display m => m.WF
  | .motor m => m.WF

instance (p : SensorPayload) : Decidable p.WF :=
  inferInstanceAs (Decidable (hepInRange _))

instance (p : Payload) : Decidable p.WF :=
  match p with
  | .sensor q => inferInstanceAs (Decidable q.WF)
  | .heartbeat _ => inferInstanceAs (Decidable True)

instance (m : SensorMessage) : Decidable m.WF :=
  inferInstanceAs (Decidable (_ ∧ _))

instance (m : DisplayMessage) : Decidable m.WF :=
  inferInstanceAs (Decidable (_ ∧ _))

instance (m : MotorMessage) : Decidable m.WF :=
  inferInstanceAs (Decidable (ValidDateTime _))

/-- Field list of a JSON object (empty for non-objects); used to state
facts about single fields of an encoded frame. -/
def Json.getFields : Json → List (String × Json)
  | .obj fs => fs
  | _ => []

/-! ## Publisher base classes (`src/msg_handler/pub_base.py`)

`BasePublisher.send` mutates the instance counter `_seq_no`; we model it
as explicit state passing.  The transport call `send_raw` is abstract in
this class, so its outcome is a parameter: `none` for success, `some e`
for the exception it raised. -/

/-- Mutable state of a `BasePublisher`: the `_seq_no` counter, initially
0. -/
structure BasePublisher where
  seq_no : Int
deriving DecidableEq, Repr

/-- Result of one `BasePublisher.send` call. -/
structure SendOutcome where
  /-- the publisher state after the call -/
  state : BasePublisher
  /-- the message object after the call (`send` may stamp `sequence_no`) -/
  message : SupportedMessage
  /-- the encoded frame delivered to the transport, when `send_raw`
  succeeded -/
  sent : Option Json
  /-- the exception re-raised to the caller, when one was raised -/
  error : Option String

/-- `BasePublisher.send(msg)`: if the message has a `sequence_no`
attribute (only `SensorMessage` declares one) and it is the 0 sentinel,
stamp it with `_seq_no`; encode with `model_dump_json`; call `send_raw`;
increment `_seq_no` only after `send_raw` returns; on any exception, log
and re-raise it unchanged. -/
def BasePublisher.send (st : BasePublisher) (msg : SupportedMessage)
    (sendRawError : Option String) : SendOutcome :=
  let msg2 : SupportedMessage :=
    match msg with
    | .sensor s =>
      if s.sequence_no = 0 then .sensor { s with sequence_no := st.seq_no }
      else msg
    | _ => msg
  match sendRawError with
  | some e => ⟨st, msg2, none, some e⟩
  | none => ⟨⟨st.seq_no + 1⟩, msg2, some (encodeMessage msg2), none⟩

/-- `AsyncBasePublisher.send(msg)`: encodes and delegates to `send_raw`,
re-raising failures; unlike the synchronous class it keeps no `_seq_no`
counter and never touches `sequence_no`.  Returns (frame delivered,
exception re-raised). -/
def AsyncBasePublisher.send (msg : SupportedMessage)
    (sendRawError : Option String) : Option Json × Option String :=
  match sendRawError with
  | some e => (none, some e)
  | none => (some (encodeMessage msg), none)

/-! ## ZeroMQ adapters (`src/msg_handler/backends/pub_zmq.py`,
`src/msg_handler/backends/sub_zmq.py`)

The pyzmq calls an adapter makes are recorded as an ordered effect list;
whether a `bind`/`connect` call raises `ZMQError` is a parameter.  The
async classes' method bodies are line-for-line identical to the
synchronous ones (apart from the context class they instantiate), so
both are wrappers of one body parametrised by the context kind. -/

/-- Concurrency kind of a ZMQ context: `zmq.Context` vs
`zmq.asyncio.Context`. -/
inductive CtxKind where
  | sync | asyncio
deriving DecidableEq, Repr

/-- A multiplexing context object. -/
structure ZCtx where
  kind : CtxKind
deriving DecidableEq, Repr

/-- Transport and logging calls an adapter performs, in order. -/
inductive Effect where
  | logWarn
  | logInfo
  | ctxCreate (k : CtxKind)
  | socketCreate
  | setSockOpt (opt : String) (value : Int)
  | connectEp (endpoint : String)
  | bindEp (endpoint : String)
  | subscribe (topic : String)
  | socketClose
  | ctxTerm
deriving DecidableEq, Repr

/-- State of a `ZmqPublisher` / `AsyncZmqPublisher` instance. -/
structure PubAdapterState where
  endpoint : String
  is_connect : Bool
  hwm : Int
  ctx : Option ZCtx
  is_own_context : Bool
  /-- `none` when `self.socket is None`; `some closed` for a socket
  object with its `closed` flag -/
  socket : Option Bool
deriving DecidableEq, Repr

/-- `ZmqPublisher.__init__` / `AsyncZmqPublisher.__init__`:
`is_own_context` is true exactly when no context was supplied; no socket
or context work happens here. -/
def mkZmqPublisher (endpoint : String) (is_connect : Bool)
    (context : Option ZCtx) (hwm : Int) : PubAdapterState :=
  ⟨endpoint, is_connect, hwm, context, context.isNone, none⟩

/-- Python truthiness test `self.socket and not self.socket.closed`. -/
def socketLive : Option Bool → Bool
  | some false => true
  | _ => false

/-- Body of `_connect_impl` (both publisher classes): early-return with a
warning when the socket is live; otherwise lazily create a context of the
class's kind if none is held, create the PUB socket, set `SNDHWM`, then
`connect` or `bind`; on `ZMQError`, set linger 0, close and drop the
socket and raise `ConnectionError`. -/
def pubConnectBody (k : CtxKind) (st : PubAdapterState) (zmqFails : Bool) :
    PubAdapterState × List Effect × Option String :=
  if socketLive st.socket then (st, [Effect.logWarn], none)
  else
    let ctxEff : Option ZCtx × List Effect :=
      match st.ctx with
      | some c => (some c, [])
      | none => (some ⟨k⟩, [Effect.ctxCreate k])
    let pre := Effect.logInfo :: ctxEff.2 ++
      [Effect.socketCreate, Effect.setSockOpt "SNDHWM" st.hwm]
    let attempt := if st.is_connect then Effect.connectEp st.endpoint
      else Effect.bindEp st.endpoint
    if zmqFails then
      ({ st with ctx := ctxEff.1, socket := none },
        pre ++ [attempt, Effect.setSockOpt "LINGER" 0, Effect.socketClose],
        some ("Failed to setup ZMQ on " ++ st.endpoint))
    else
      ({ st with ctx := ctxEff.1, socket := some false },
        pre ++ [attempt], none)

/-- `ZmqPublisher._connect_impl` (creates a `zmq.Context` when owning). -/
def ZmqPublisher.connectImpl : PubAdapterState → Bool →
    PubAdapterState × List Effect × Option String :=
  pubConnectBody .sync

/-- `AsyncZmqPublisher._connect_impl` (creates a `zmq.asyncio.Context`
when owning); body otherwise identical to the synchronous class. -/
def AsyncZmqPublisher.connectImpl : PubAdapterState → Bool →
    PubAdapterState × List Effect × Option String :=
  pubConnectBody .asyncio

/-- Body of `close` (both publisher classes): if a socket is held, set
linger 0, close and drop it; then terminate the context only when this
instance owns it. -/
def pubCloseBody (st : PubAdapterState) : PubAdapterState × List Effect :=
  let r1 : PubAdapterState × List Effect :=
    match st.socket with
    | some _ => ({ st with socket := none },
        [Effect.setSockOpt "LINGER" 0, Effect.socketClose])
    | none => (st, [])
  if r1.1.ctx.isSome && r1.1.is_own_context then
    ({ r1.1 with ctx := none }, r1.2 ++ [Effect.ctxTerm])
  else r1

/-- `ZmqPublisher.close`. -/
def ZmqPublisher.close : PubAdapterState → PubAdapterState × List Effect :=
  pubCloseBody

/-- `AsyncZmqPublisher.close`; body identical to the synchronous class. -/
def AsyncZmqPublisher.close : PubAdapterState → PubAdapterState × List Effect :=
  pubCloseBody

/-- State of a `ZmqSubscriber` / `AsyncZmqSubscriber` instance. -/
structure SubAdapterState where
  endpoint : String
  topics : List String
  is_bind : Bool
  expected_type : ExpectedMessageType
  hwm : Int
  ctx : Option ZCtx
  is_own_context : Bool
  socket : Option Bool
  running : Bool
deriving DecidableEq, Repr

/-- Python `topics or [""]`: `None` and the empty list both fall back to
the subscribe-to-all filter. -/
def defaultTopics : Option (List String) → List String
  | none => [""]
  | some [] => [""]
  | some ts => ts

/-- `ZmqSubscriber.__init__` / `AsyncZmqSubscriber.__init__`. -/
def mkZmqSubscriber (endpoint : String) (is_bind : Bool)
    (topics : Option (List String)) (expected_type : ExpectedMessageType)
    (context : Option ZCtx) (hwm : Int) : SubAdapterState :=
  ⟨endpoint, defaultTopics topics, is_bind, expected_type, hwm, context,
    context.isNone, none, true⟩

/-- Body of `connect` (both subscriber classes): when the socket is
absent or closed, lazily create a context of the class's kind if none is
held, create the SUB socket and set `RCVHWM` — and then, in every case
(including a still-live socket: there is no early return here), `bind`
or `connect` and re-issue one `subscribe` per topic; on `ZMQError`, set
linger 0, close and drop the socket and raise `ConnectionError` with the
duplicate-bind hint. -/
def subConnectBody (k : CtxKind) (st : SubAdapterState) (zmqFails : Bool) :
    SubAdapterState × List Effect × Option String :=
  let setup : SubAdapterState × List Effect :=
    if socketLive st.socket then (st, [])
    else
      let ctxEff : Option ZCtx × List Effect :=
        match st.ctx with
        | some c => (some c, [])
        | none => (some ⟨k⟩, [Effect.ctxCreate k])
      ({ st with ctx := ctxEff.1, socket := some false },
        ctxEff.2 ++ [Effect.socketCreate, Effect.setSockOpt "RCVHWM" st.hwm])
  let attempt := if st.is_bind then Effect.bindEp st.endpoint
    else Effect.connectEp st.endpoint
  if zmqFails then
    ({ setup.1 with socket := none },
      setup.2 ++ [attempt, Effect.setSockOpt "LINGER" 0, Effect.socketClose],
      some ("Failed to setup ZMQ Subscriber on " ++ st.endpoint ++
        ", Did you try to bind multiple subscribers to the same address & port?"))
  else
    (setup.1, setup.2 ++ attempt :: setup.1.topics.map Effect.subscribe, none)

/-- `ZmqSubscriber.connect`. -/
def ZmqSubscriber.connect : SubAdapterState → Bool →
    SubAdapterState × List Effect × Option String :=
  subConnectBody .sync

/-- `AsyncZmqSubscriber.connect`; body identical to the synchronous
class. -/
def AsyncZmqSubscriber.connect : SubAdapterState → Bool →
    SubAdapterState × List Effect × Option String :=
  subConnectBody .asyncio

/-- Body of `close` (both subscriber classes): clear `_running`, then
close the socket and terminate the context only when owned, exactly as
the publishers do. -/
def subCloseBody (st : SubAdapterState) : SubAdapterState × List Effect :=
  let st0 := { st with running := false }
  let r1 : SubAdapterState × List Effect :=
    match st0.socket with
    | some _ => ({ st0 with socket := none },
        [Effect.setSockOpt "LINGER" 0, Effect.socketClose])
    | none => (st0, [])
  if r1.1.ctx.isSome && r1.1.is_own_context then
    ({ r1.1 with ctx := none }, r1.2 ++ [Effect.ctxTerm])
  else r1

/-- `ZmqSubscriber.close`. -/
def ZmqSubscriber.close : SubAdapterState → SubAdapterState × List Effect :=
  subCloseBody

/-- `AsyncZmqSubscriber.close`; body identical to the synchronous
class. -/
def AsyncZmqSubscriber.close : SubAdapterState → SubAdapterState × List Effect :=
  subCloseBody

/-! ## Factories (`src/msg_handler/pub_factory.py`,
`src/msg_handler/sub_factory.py`)

The factories are pure: they inspect the options value and call the
adapter constructor (which performs no socket or context work), or raise
before constructing anything. -/

/-- The `PublisherOptions` union (`ZmqPubOptions | MqttPubOptions`). -/
inductive PublisherOptions where
  | zmq (endpoint : String) (is_connect : Bool) (context : Option ZCtx)
      (hwm : Int)
  | mqtt (broker_url : String) (port : Int)

/-- The `SubscriberOptions` union (`ZmqSubOptions | MqttSubOptions`). -/
inductive SubscriberOptions where
  | zmq (endpoint : String) (topics : List String) (is_bind : Bool)
      (expected_type : ExpectedMessageType) (hwm : Int) (context : Option ZCtx)
  | mqtt (broker_url : String) (port : Int) (topics : List String)

/-- `get_publisher`: rejects an asyncio-kind shared context with
`TypeError` before constructing the adapter. -/
def get_publisher : PublisherOptions → Except String PubAdapterState
  | .zmq endpoint is_connect context hwm =>
    match context with
    | none => .ok (mkZmqPublisher endpoint is_connect none hwm)
    | some c =>
      if c.kind = .asyncio then
        .error "ZmqPubOptions.context must be zmq.Context for sync publisher."
      else .ok (mkZmqPublisher endpoint is_connect (some c) hwm)
  | .mqtt _ _ => .error "MQTT backend is not implemented yet."

/-- `get_async_publisher`: accepts only an asyncio-kind shared context,
rejecting a synchronous one with `TypeError` before constructing the
adapter. -/
def get_async_publisher : PublisherOptions → Except String PubAdapterState
  | .zmq endpoint is_connect context hwm =>
    match context with
    | none => .ok (mkZmqPublisher endpoint is_connect none hwm)
    | some c =>
      if c.kind = .asyncio then
        .ok (mkZmqPublisher endpoint is_connect (some c) hwm)
      else
        .error "ZmqPubOptions.context must be zmq.asyncio.Context for async publisher."
  | .mqtt _ _ => .error "MQTT backend is not implemented yet."

/-- `get_subscriber`: rejects an asyncio-kind shared context with
`TypeError` before constructing the adapter. -/
def get_subscriber : SubscriberOptions → Except String SubAdapterState
  | .zmq endpoint topics is_bind expected_type hwm context =>
    match context with
    | none =>
      .ok (mkZmqSubscriber endpoint is_bind (some topics) expected_type none hwm)
    | some c =>
      if c.kind = .asyncio then
        .error "ZmqSubOptions.context must be zmq.Context for sync subscriber."
      else
        .ok (mkZmqSubscriber endpoint is_bind (some topics) expected_type
          (some c) hwm)
  | .mqtt _ _ _ => .error "MQTT backend is not implemented yet."

/-- `get_async_subscriber`: accepts only an asyncio-kind shared context,
rejecting a synchronous one with `TypeError` before constructing the
adapter. -/
def get_async_subscriber : SubscriberOptions → Except String SubAdapterState
  | .zmq endpoint topics is_bind expected_type hwm context =>
    match context with
    | none =>
      .ok (mkZmqSubscriber endpoint is_bind (some topics) expected_type none hwm)
    | some c =>
      if c.kind = .asyncio then
        .ok (mkZmqSubscriber endpoint is_bind (some topics) expected_type
          (some c) hwm)
      else
        .error "ZmqSubOptions.context must be zmq.asyncio.Context for async subscriber."
  | .mqtt _ _ _ => .error "MQTT backend is not implemented yet."

/-! ## Topic-prefix unwrapping (`sub_zmq._unwrap_topic_prefixed_payload`) -/

/-- Characters Python's `str.lstrip()` strips (ASCII whitespace; the wire
strings here are ASCII). -/
def isPySpace (c : Char) : Bool :=
  c = ' ' || c = '\t' || c = '\n' || c = '\r' || c = '\x0b' || c = '\x0c'

/-- Python `s.lstrip()`. -/
def lstripChars (cs : List Char) : List Char := cs.dropWhile isPySpace

/-- Python `s.startswith("{")` (the brace written `\x7b`). -/
def startsWithLbrace : List Char → Bool
  | c :: _ => c = '\x7b'
  | [] => false

/-- `_unwrap_topic_prefixed_payload(raw_msg)`: return the JSON payload
part of `topic + space + json`, or `raw_msg` unchanged when it already
is JSON (or matches neither shape).  `splitFirst (· = ' ')` is Python's
`raw_msg.split(" ", 1)` restricted to the two-part case. -/
def unwrap_topic_prefixed_payload (raw : List Char) : List Char :=
  if startsWithLbrace (lstripChars raw) then raw
  else
    match splitFirst (fun c => c = ' ') raw with
    | some (_, rest) =>
      if startsWithLbrace (lstripChars rest) then rest else raw
    | none => raw

/-! ## Theorems -/

theorem digitVal_digitChar {d : Nat} (h : d < 10) :
    digitVal (digitChar d) = some d := by
  interval_cases d <;> rfl

theorem valOfDigits_natDigitsAux :
    ∀ fuel n, n ≤ fuel → valOfDigits (natDigitsAux fuel n) = n := by
  intro fuel
  induction fuel with
  | zero => intro n h; interval_cases n; rfl
  | succ f ih =>
    intro n h
    by_cases hn : n = 0
    · simp [natDigitsAux, hn, valOfDigits]
    · have hdiv : n / 10 ≤ f := by
        have : n / 10 < n := Nat.div_lt_self (Nat.pos_of_ne_zero hn) (by omega)
        omega
      simp only [natDigitsAux, if_neg hn, valOfDigits, ih _ hdiv]
      omega

theorem valOfDigits_natDigits (n : Nat) : valOfDigits (natDigits n) = n :=
  valOfDigits_natDigitsAux n n le_rfl

theorem mem_natDigitsAux_lt :
    ∀ fuel n d, d ∈ natDigitsAux fuel n → d < 10 := by
  intro fuel
  induction fuel with
  | zero => intro n d h; simp [natDigitsAux] at h
  | succ f ih =>
    intro n d h
    by_cases hn : n = 0
    · simp [natDigitsAux, hn] at h
    · simp only [natDigitsAux, if_neg hn, List.mem_cons] at h
      rcases h with h | h
      · subst h; exact Nat.mod_lt _ (by omega)
      · exact ih _ _ h

theorem bvalDigits_replicate_zero (k : Nat) (ds : List Nat) :
    bvalDigits (List.replicate k 0 ++ ds) = bvalDigits ds := by
  induction k with
  | zero => rfl
  | succ m ih => simpa [List.replicate_succ, bvalDigits] using ih

theorem bvalDigits_reverse (ds : List Nat) :
    bvalDigits ds.reverse = valOfDigits ds := by
  unfold bvalDigits
  rw [List.foldl_reverse]
  induction ds with
  | nil => rfl
  | cons d ds ih => simp [valOfDigits, ih]; ring

theorem bvalDigits_padDigits (w n : Nat) : bvalDigits (padDigits w n) = n := by
  unfold padDigits
  rw [bvalDigits_replicate_zero, bvalDigits_reverse, valOfDigits_natDigits]

theorem mem_padDigits_lt {w n d : Nat} (h : d ∈ padDigits w n) : d < 10 := by
  unfold padDigits at h
  rcases List.mem_append.mp h with h | h
  · have := List.eq_of_mem_replicate h; omega
  · exact mem_natDigitsAux_lt _ _ _ (List.mem_reverse.mp h)

theorem padDigits_length_pos {w n : Nat} (hw : 0 < w) :
    0 < (padDigits w n).length := by
  unfold padDigits
  rw [List.length_append, List.length_replicate]
  omega

theorem padChars_ne_nil {w n : Nat} (hw : 0 < w) : padChars w n ≠ [] := by
  have : 0 < (padChars w n).length := by
    unfold padChars
    rw [List.length_map]
    exact padDigits_length_pos hw
  exact List.ne_nil_of_length_pos this

/-- Every character of a padded decimal is a digit character of a value
below 10. -/
theorem mem_padChars {w n : Nat} {c : Char} (h : c ∈ padChars w n) :
    ∃ d, d < 10 ∧ c = digitChar d := by
  unfold padChars at h
  rcases List.mem_map.mp h with ⟨d, hd, rfl⟩
  exact ⟨d, mem_padDigits_lt hd, rfl⟩

theorem parseDigitsAux_map_digitChar :
    ∀ (ds : List Nat) (acc : Nat), (∀ d ∈ ds, d < 10) →
      parseDigitsAux (ds.map digitChar) acc =
        some (ds.foldl (fun a d => 10 * a + d) acc) := by
  intro ds
  induction ds with
  | nil => intro acc _; rfl
  | cons d ds ih =>
    intro acc h
    have hd : d < 10 := h d (List.mem_cons_self d ds)
    simp only [List.map_cons, parseDigitsAux, digitVal_digitChar hd, List.foldl_cons]
    exact ih _ (fun x hx => h x (List.mem_cons_of_mem _ hx))

theorem parseNatChars_padChars (w n : Nat) (hw : 0 < w) :
    parseNatChars (padChars w n) = some n := by
  have hne : padChars w n ≠ [] := padChars_ne_nil hw
  have hdig : ∀ d ∈ padDigits w n, d < 10 := fun d hd => mem_padDigits_lt hd
  obtain ⟨c, cs, hcs⟩ : ∃ c cs, padChars w n = c :: cs := by
    cases hx : padChars w n with
    | nil => exact absurd hx hne
    | cons c cs => exact ⟨c, cs, rfl⟩
  calc parseNatChars (padChars w n)
      = parseDigitsAux (padChars w n) 0 := by rw [hcs]; rfl
    _ = some (bvalDigits (padDigits w n)) :=
        parseDigitsAux_map_digitChar _ 0 hdig
    _ = some n := by rw [bvalDigits_padDigits]

theorem splitFirst_append_not {p : Char → Bool} :
    ∀ (xs : List Char), (∀ x ∈ xs, p x = false) →
      ∀ (c : Char), p c = true → ∀ (ys : List Char),
        splitFirst p (xs ++ c :: ys) = some (xs, ys) := by
  intro xs
  induction xs with
  | nil => intro _ c hc ys; simp [splitFirst, hc]
  | cons x xs ih =>
    intro h c hc ys
    have hx : p x = false := h x (List.mem_cons_self x xs)
    have hrec := ih (fun y hy => h y (List.mem_cons_of_mem _ hy)) c hc ys
    simp only [List.cons_append, splitFirst, hx, Bool.false_eq_true, if_false,
      List.append_eq]
    rw [hrec]

theorem splitFirst_none {p : Char → Bool} :
    ∀ (xs : List Char), (∀ x ∈ xs, p x = false) → splitFirst p xs = none := by
  intro xs
  induction xs with
  | nil => intro _; rfl
  | cons x xs ih =>
    intro h
    have hx : p x = false := h x (List.mem_cons_self x xs)
    simp [splitFirst, hx, ih (fun y hy => h y (List.mem_cons_of_mem _ hy))]

theorem splitOnChar_ne_nil (sep : Char) :
    ∀ cs, splitOnChar sep cs ≠ [] := by
  intro cs
  induction cs with
  | nil => simp [splitOnChar]
  | cons c cs ih =>
    cases hx : splitOnChar sep cs with
    | nil => exact absurd hx ih
    | cons h t =>
      by_cases hc : c = sep <;> simp [splitOnChar, hx, hc]

theorem splitOnChar_no_sep {sep : Char} :
    ∀ (xs : List Char), (∀ x ∈ xs, x ≠ sep) → splitOnChar sep xs = [xs] := by
  intro xs
  induction xs with
  | nil => intro _; rfl
  | cons x xs ih =>
    intro h
    have hx : x ≠ sep := h x (List.mem_cons_self x xs)
    simp [splitOnChar, ih (fun y hy => h y (List.mem_cons_of_mem _ hy)), hx]

theorem splitOnChar_append_sep {sep : Char} :
    ∀ (xs : List Char), (∀ x ∈ xs, x ≠ sep) → ∀ (ys : List Char),
      splitOnChar sep (xs ++ sep :: ys) = xs :: splitOnChar sep ys := by
  intro xs
  induction xs with
  | nil =>
    intro _ ys
    cases hx : splitOnChar sep ys with
    | nil => exact absurd hx (splitOnChar_ne_nil sep ys)
    | cons h t => simp [splitOnChar, hx]
  | cons x xs ih =>
    intro h ys
    have hx : x ≠ sep := h x (List.mem_cons_self x xs)
    have hrec := ih (fun y hy => h y (List.mem_cons_of_mem _ hy)) ys
    simp only [List.cons_append, splitOnChar, List.append_eq]
    rw [hrec]
    simp [hx]

theorem digitChar_ne_seps {d : Nat} (h : d < 10) :
    digitChar d ≠ 'T' ∧ digitChar d ≠ ' ' ∧ digitChar d ≠ '-' ∧
      digitChar d ≠ ':' := by
  interval_cases d <;> refine ⟨by decide, by decide, by decide, by decide⟩

theorem mem_padChars_not_dtSep {w n : Nat} {c : Char} (h : c ∈ padChars w n) :
    (c = 'T' || c = ' ') = false := by
  obtain ⟨d, hd, rfl⟩ := mem_padChars h
  obtain ⟨h1, h2, -, -⟩ := digitChar_ne_seps hd
  simp [h1, h2]

theorem mem_padChars_ne_dash {w n : Nat} {c : Char} (h : c ∈ padChars w n) :
    c ≠ '-' := by
  obtain ⟨d, hd, rfl⟩ := mem_padChars h
  exact (digitChar_ne_seps hd).2.2.1

theorem mem_padChars_ne_colon {w n : Nat} {c : Char} (h : c ∈ padChars w n) :
    c ≠ ':' := by
  obtain ⟨d, hd, rfl⟩ := mem_padChars h
  exact (digitChar_ne_seps hd).2.2.2

theorem renderDatePart_no_dtSep (dt : DateTime) :
    ∀ c ∈ renderDatePart dt, (c = 'T' || c = ' ') = false := by
  intro c hc
  unfold renderDatePart at hc
  rcases List.mem_append.mp hc with h | h
  · exact mem_padChars_not_dtSep h
  · rcases List.mem_cons.mp h with rfl | h
    · decide
    · rcases List.mem_append.mp h with h | h
      · exact mem_padChars_not_dtSep h
      · rcases List.mem_cons.mp h with rfl | h
        · decide
        · exact mem_padChars_not_dtSep h

theorem splitOnChar_renderDatePart (dt : DateTime) :
    splitOnChar '-' (renderDatePart dt) =
      [padChars 4 dt.year, padChars 2 dt.month, padChars 2 dt.day] := by
  unfold renderDatePart
  rw [splitOnChar_append_sep _ (fun c hc => mem_padChars_ne_dash hc),
    splitOnChar_append_sep _ (fun c hc => mem_padChars_ne_dash hc),
    splitOnChar_no_sep _ (fun c hc => mem_padChars_ne_dash hc)]

theorem parseTimestamp_renderMinute (dt : DateTime) (h : ValidDateTime dt) :
    parseTimestampChars (renderTimestampMinute dt) = some (truncToMinute dt) := by
  obtain ⟨hy, hm1, hm2, hd1, hd2, hh, hmi, hs⟩ := h
  have hfirst : splitFirst (fun c => c = 'T' || c = ' ')
      (renderTimestampMinute dt) =
      some (renderDatePart dt, padChars 2 dt.hour ++ ':' :: padChars 2 dt.minute) := by
    have := splitFirst_append_not (p := fun c => c = 'T' || c = ' ')
      (renderDatePart dt) (renderDatePart_no_dtSep dt) ' ' (by decide)
      (padChars 2 dt.hour ++ ':' :: padChars 2 dt.minute)
    calc splitFirst (fun c => c = 'T' || c = ' ') (renderTimestampMinute dt)
        = splitFirst (fun c => c = 'T' || c = ' ')
            (renderDatePart dt ++ ' ' ::
              (padChars 2 dt.hour ++ ':' :: padChars 2 dt.minute)) := by
          unfold renderTimestampMinute renderDatePart
          simp [List.append_assoc]
      _ = _ := this
  have htime : splitOnChar ':' (padChars 2 dt.hour ++ ':' :: padChars 2 dt.minute)
      = [padChars 2 dt.hour, padChars 2 dt.minute] := by
    rw [splitOnChar_append_sep _ (fun c hc => mem_padChars_ne_colon hc),
      splitOnChar_no_sep _ (fun c hc => mem_padChars_ne_colon hc)]
  unfold parseTimestampChars
  rw [hfirst]
  simp only [splitOnChar_renderDatePart, htime,
    parseNatChars_padChars 4 _ (by omega), parseNatChars_padChars 2 _ (by omega)]
  unfold mkCheckedDateTime
  rw [if_pos (by omega)]
  rfl

theorem parseTimestamp_renderIso (dt : DateTime) (h : ValidDateTime dt) :
    parseTimestampChars (renderTimestampIso dt) = some dt := by
  obtain ⟨hy, hm1, hm2, hd1, hd2, hh, hmi, hs⟩ := h
  have hfirst : splitFirst (fun c => c = 'T' || c = ' ')
      (renderTimestampIso dt) =
      some (renderDatePart dt,
        padChars 2 dt.hour ++ ':' :: (padChars 2 dt.minute ++
          ':' :: padChars 2 dt.second)) := by
    have := splitFirst_append_not (p := fun c => c = 'T' || c = ' ')
      (renderDatePart dt) (renderDatePart_no_dtSep dt) 'T' (by decide)
      (padChars 2 dt.hour ++ ':' :: (padChars 2 dt.minute ++
        ':' :: padChars 2 dt.second))
    calc splitFirst (fun c => c = 'T' || c = ' ') (renderTimestampIso dt)
        = splitFirst (fun c => c = 'T' || c = ' ')
            (renderDatePart dt ++ 'T' ::
              (padChars 2 dt.hour ++ ':' :: (padChars 2 dt.minute ++
                ':' :: padChars 2 dt.second))) := by
          unfold renderTimestampIso renderDatePart
          simp [List.append_assoc]
      _ = _ := this
  have htime : splitOnChar ':'
      (padChars 2 dt.hour ++ ':' :: (padChars 2 dt.minute ++
        ':' :: padChars 2 dt.second))
      = [padChars 2 dt.hour, padChars 2 dt.minute, padChars 2 dt.second] := by
    rw [splitOnChar_append_sep _ (fun c hc => mem_padChars_ne_colon hc),
      splitOnChar_append_sep _ (fun c hc => mem_padChars_ne_colon hc),
      splitOnChar_no_sep _ (fun c hc => mem_padChars_ne_colon hc)]
  unfold parseTimestampChars
  rw [hfirst]
  simp only [splitOnChar_renderDatePart, htime,
    parseNatChars_padChars 4 _ (by omega), parseNatChars_padChars 2 _ (by omega)]
  unfold mkCheckedDateTime
  rw [if_pos (by omega)]

@[simp] theorem exceptBind_ok {α β ε : Type} (a : α) (f : α → Except ε β) :
    (Except.ok a >>= f) = f a := rfl

@[simp] theorem exceptBind_error {α β ε : Type} (e : ε) (f : α → Except ε β) :
    ((Except.error e : Except ε α) >>= f) = Except.error e := rfl

@[simp] theorem exceptPure {α ε : Type} (a : α) :
    (pure a : Except ε α) = Except.ok a := rfl

@[simp] theorem exceptMap_ok {α β ε : Type} (f : α → β) (a : α) :
    Except.map f (Except.ok a : Except ε α) = Except.ok (f a) := rfl

@[simp] theorem exceptMap_error {α β ε : Type} (f : α → β) (e : ε) :
    Except.map f (Except.error e : Except ε α) = Except.error e := rfl

/-! ### Encode/validate round-trip lemmas -/

theorem vOptStr_encodeOptStr (o : Option String) :
    vOptStr (encodeOptStr o) = .ok o := by
  cases o <;> rfl

theorem validateSensorPayload_encode (p : SensorPayload) (h : p.WF) :
    validateSensorPayload (encodeSensorPayload p) = .ok p := by
  obtain ⟨ith, hep, st, sc⟩ := p
  simp only [SensorPayload.WF, hepInRange] at h
  simp [validateSensorPayload, encodeSensorPayload, asObj, reqField,
    lookupField, vBool, vHep, vStr, vInt, encodeOptNum]
  cases hep with
  | none => simp [lookupField]
  | some q =>
    simp only [hepInRange] at h
    simp [lookupField, if_pos h]

theorem validateHeartBeatPayload_encode (p : HeartBeatPayload) :
    validateHeartBeatPayload (encodeHeartBeatPayload p) = .ok p := by
  obtain ⟨st, sc⟩ := p
  simp [validateHeartBeatPayload, encodeHeartBeatPayload, asObj, reqField,
    lookupField, vStr, vInt]

/-- A heartbeat wire object lacks `isThereHuman`, so the first union
member `SensorPayload` fails on it. -/
theorem validateSensorPayload_encodeHB (p : HeartBeatPayload) :
    validateSensorPayload (encodeHeartBeatPayload p) =
      .error "missing required field isThereHuman" := by
  simp [validateSensorPayload, encodeHeartBeatPayload, asObj, reqField,
    lookupField]

theorem validatePayload_encode (pl : Payload) (h : pl.WF) :
    validatePayload (encodePayload pl) = .ok pl := by
  cases pl with
  | sensor p =>
    simp only [Payload.WF] at h
    simp [validatePayload, encodePayload, validateSensorPayload_encode p h]
  | heartbeat p =>
    simp [validatePayload, encodePayload, validateSensorPayload_encodeHB,
      validateHeartBeatPayload_encode]

theorem validateSensorMessage_encode (now : DateTime) (m : SensorMessage)
    (h : m.WF) :
    validateSensorMessage now (encodeSensorMessage m) =
      .ok { m with timestamp := truncToMinute m.timestamp } := by
  obtain ⟨hts, hp⟩ := h
  obtain ⟨sid, sname, ts, dty, pl, sq⟩ := m
  simp [validateSensorMessage, encodeSensorMessage, asObj, reqField,
    lookupField, vStr, vTimestampField, vDateTime, vSeqNoField, vInt,
    parseTimestamp_renderMinute _ hts, vOptStr_encodeOptStr,
    validatePayload_encode _ hp]

theorem validateSensorDisplayMode_encode (m : SensorDisplayMode)
    (h : hepInRange m.human_exist_possibility) :
    validateSensorDisplayMode (encodeSensorDisplayMode m) = .ok m := by
  obtain ⟨sn, ith, hep⟩ := m
  simp only [hepInRange] at h
  simp [validateSensorDisplayMode, encodeSensorDisplayMode, asObj, reqField,
    lookupField, vStr, vBool, vHep, encodeOptNum]
  cases hep with
  | none => simp [lookupField]
  | some q =>
    simp only [hepInRange] at h
    simp [lookupField, if_pos h]

theorem validateSdmEntries_encode (l : List (String × SensorDisplayMode))
    (h : ∀ kv ∈ l, hepInRange kv.2.human_exist_possibility) :
    validateSdmEntries
      (l.map fun kv => (kv.1, encodeSensorDisplayMode kv.2)) = .ok l := by
  induction l with
  | nil => rfl
  | cons kv rest ih =>
    have h1 := h kv (List.mem_cons_self kv rest)
    have h2 := ih (fun x hx => h x (List.mem_cons_of_mem _ hx))
    simp [validateSdmEntries, validateSensorDisplayMode_encode kv.2 h1, h2]

theorem validateDisplayMessage_encode (now : DateTime) (m : DisplayMessage)
    (h : m.WF) :
    validateDisplayMessage now (encodeDisplayMessage m) = .ok m := by
  obtain ⟨hts, hsdd⟩ := h
  obtain ⟨sid, ts, ovr, sdd, mm⟩ := m
  simp [validateDisplayMessage, encodeDisplayMessage, asObj, reqField,
    lookupField, vStr, vBool, vTimestampField, vDateTime, vSdmDict,
    parseTimestamp_renderIso _ hts, validateSdmEntries_encode sdd hsdd]

theorem validateMotorMessage_encode (now : DateTime) (m : MotorMessage)
    (h : m.WF) :
    validateMotorMessage now (encodeMotorMessage m) = .ok m := by
  obtain ⟨sid, ts, ovr, om⟩ := m
  simp [validateMotorMessage, encodeMotorMessage, asObj, reqField,
    lookupField, vStr, vBool, vTimestampField, vDateTime,
    parseTimestamp_renderIso _ h]

/-- An encoded `DisplayMessage` lacks `sender_name`, so `SensorMessage`
validation fails on it. -/
theorem validateSensorMessage_encodeDisplay (now : DateTime)
    (m : DisplayMessage) :
    validateSensorMessage now (encodeDisplayMessage m) =
      .error "missing required field sender_name" := by
  simp [validateSensorMessage, encodeDisplayMessage, asObj, reqField,
    lookupField, vStr]

/-- An encoded `MotorMessage` lacks `sender_name`, so `SensorMessage`
validation fails on it. -/
theorem validateSensorMessage_encodeMotor (now : DateTime)
    (m : MotorMessage) :
    validateSensorMessage now (encodeMotorMessage m) =
      .error "missing required field sender_name" := by
  simp [validateSensorMessage, encodeMotorMessage, asObj, reqField,
    lookupField, vStr]

/-- An encoded `MotorMessage` lacks `moter_mode`, so `DisplayMessage`
validation fails on it. -/
theorem validateDisplayMessage_encodeMotor (now : DateTime)
    (m : MotorMessage) (h : m.WF) :
    validateDisplayMessage now (encodeMotorMessage m) =
      .error "missing required field moter_mode" := by
  simp [validateDisplayMessage, encodeMotorMessage, asObj, reqField,
    lookupField, vStr, vBool, vTimestampField, vDateTime, vSdmDict,
    parseTimestamp_renderIso _ h]

/-! ## Claim theorems -/

/-- C1: with `expected_kind = auto`, decoding tries the message-kind
shapes in the declared order Sensor, Display, Motor and returns the first
whose required fields all validate; payload decoding inside a
`SensorMessage` tries SensorPayload then HeartBeatPayload; in particular
a payload object with `isThereHuman`/`sensor_status`/`sensor_status_code`
decodes as `SensorPayload` and one with only `status`/`status_code`
decodes as `HeartBeatPayload`. -/
theorem c1_auto_decode_first_match :
    (∀ now j m, validateSensorMessage now j = .ok m →
        parse_message_json now j .auto = .ok (.sensor m)) ∧
    (∀ now j e m, validateSensorMessage now j = .error e →
        validateDisplayMessage now j = .ok m →
        parse_message_json now j .auto = .ok (.display m)) ∧
    (∀ now j e1 e2 m, validateSensorMessage now j = .error e1 →
        validateDisplayMessage now j = .error e2 →
        validateMotorMessage now j = .ok m →
        parse_message_json now j .auto = .ok (.motor m)) ∧
    (∀ j p, validateSensorPayload j = .ok p →
        validatePayload j = .ok (.sensor p)) ∧
    (∀ j e p, validateSensorPayload j = .error e →
        validateHeartBeatPayload j = .ok p →
        validatePayload j = .ok (.heartbeat p)) ∧
    validatePayload (Json.obj
      [("isThereHuman", Json.bool true),
       ("sensor_status", Json.str "Running"),
       ("sensor_status_code", Json.num 1)]) =
      .ok (.sensor ⟨true, none, "Running", 1⟩) ∧
    validatePayload (Json.obj
      [("status", Json.str "Active"), ("status_code", Json.num 0)]) =
      .ok (.heartbeat ⟨"Active", 0⟩) := by
  refine ⟨?_, ?_, ?_, ?_, ?_, rfl, rfl⟩
  · intro now j m h; simp [parse_message_json, h]
  · intro now j e m h1 h2; simp [parse_message_json, h1, h2]
  · intro now j e1 e2 m h1 h2 h3; simp [parse_message_json, h1, h2, h3]
  · intro j p h; simp [validatePayload, h]
  · intro j e p h1 h2; simp [validatePayload, h1, h2]

/-- Witness for C1: a motor-shaped frame (which fails the Sensor and
Display shapes) decodes as a MotorMessage under `auto`, and the two
concrete payload shapes decode as stated. -/
theorem c1_witness :
    parse_message_json ⟨2026, 1, 1, 0, 0, 0⟩
      (Json.obj
        [("sender_id", Json.str "m"),
         ("timestamp", Json.str "2026-10-12 14:30"),
         ("is_override_mode", Json.bool false),
         ("ordered_mode", Json.str "fold")]) .auto =
      .ok (.motor ⟨"m", ⟨2026, 10, 12, 14, 30, 0⟩, false, "fold"⟩) ∧
    validatePayload (Json.obj
      [("status", Json.str "Active"), ("status_code", Json.num 0)]) =
      .ok (.heartbeat ⟨"Active", 0⟩) :=
  ⟨c1_auto_decode_first_match.2.2.1 ⟨2026, 1, 1, 0, 0, 0⟩ _
      "missing required field sender_name" "missing required field moter_mode" _
      (by rfl) (by rfl) (by rfl),
    c1_auto_decode_first_match.2.2.2.2.2.2⟩

/-- C2 counterexample: a valid `MotorMessage` whose timestamp has a
nonzero seconds field round-trips through encode and auto-decode to
exactly itself — its timestamp is not truncated to minute precision,
because `DisplayMessage` and `MotorMessage` declare no minute-truncating
timestamp serializer (only `SensorMessage` does). -/
theorem c2_roundtrip_counterexample :
    parse_message_json ⟨2026, 1, 1, 0, 0, 0⟩
      (encodeMotorMessage ⟨"motor-1", ⟨2026, 10, 12, 14, 30, 30⟩, false, "fold"⟩)
      .auto =
      .ok (.motor ⟨"motor-1", ⟨2026, 10, 12, 14, 30, 30⟩, false, "fold"⟩) ∧
    (⟨2026, 10, 12, 14, 30, 30⟩ : DateTime) ≠
      truncToMinute ⟨2026, 10, 12, 14, 30, 30⟩ :=
  ⟨rfl, by decide⟩

/-- C2 as amended: auto-decoding the encoded JSON of a valid envelope
reproduces it field for field, with the timestamp truncated to minute
precision for a `SensorMessage` and preserved exactly for a
`DisplayMessage` or `MotorMessage`. -/
theorem c2_roundtrip_amended :
    (∀ now m, SensorMessage.WF m →
        parse_message_json now (encodeSensorMessage m) .auto =
          .ok (.sensor { m with timestamp := truncToMinute m.timestamp })) ∧
    (∀ now m, DisplayMessage.WF m →
        parse_message_json now (encodeDisplayMessage m) .auto =
          .ok (.display m)) ∧
    (∀ now m, MotorMessage.WF m →
        parse_message_json now (encodeMotorMessage m) .auto =
          .ok (.motor m)) := by
  refine ⟨?_, ?_, ?_⟩
  · intro now m h
    simp [parse_message_json, validateSensorMessage_encode now m h]
  · intro now m h
    simp [parse_message_json, validateSensorMessage_encodeDisplay now m,
      validateDisplayMessage_encode now m h]
  · intro now m h
    simp [parse_message_json, validateSensorMessage_encodeMotor now m,
      validateDisplayMessage_encodeMotor now m h,
      validateMotorMessage_encode now m h]

/-- Witness for C2: a concrete sensor envelope with seconds 30 decodes
back with its timestamp truncated to 14:30:00, all other fields equal. -/
theorem c2_witness :
    parse_message_json ⟨2026, 1, 1, 0, 0, 0⟩
      (encodeSensorMessage
        ⟨"s1", some "chock", ⟨2026, 10, 12, 14, 30, 30⟩, "sensor",
          .sensor ⟨true, some 25, "Running", 1⟩, 7⟩) .auto =
      .ok (.sensor
        ⟨"s1", some "chock", ⟨2026, 10, 12, 14, 30, 0⟩, "sensor",
          .sensor ⟨true, some 25, "Running", 1⟩, 7⟩) :=
  c2_roundtrip_amended.1 ⟨2026, 1, 1, 0, 0, 0⟩
    ⟨"s1", some "chock", ⟨2026, 10, 12, 14, 30, 30⟩, "sensor",
      .sensor ⟨true, some 25, "Running", 1⟩, 7⟩ (by decide)

/-- C4: with an explicit `expected_kind`, decode validates only against
that kind's shape: it fails exactly when that kind's validation fails
(with the same error), and any success is an envelope of that kind
produced by that kind's validator — never one of the other two kinds. -/
theorem c4_explicit_kind_no_fallback :
    (∀ now j e, validateSensorMessage now j = .error e →
        parse_message_json now j .sensor = .error e) ∧
    (∀ now j m, parse_message_json now j .sensor = .ok m →
        ∃ s, m = .sensor s ∧ validateSensorMessage now j = .ok s) ∧
    (∀ now j e, validateDisplayMessage now j = .error e →
        parse_message_json now j .display = .error e) ∧
    (∀ now j m, parse_message_json now j .display = .ok m →
        ∃ d, m = .display d ∧ validateDisplayMessage now j = .ok d) ∧
    (∀ now j e, validateMotorMessage now j = .error e →
        parse_message_json now j .motor = .error e) ∧
    (∀ now j m, parse_message_json now j .motor = .ok m →
        ∃ mo, m = .motor mo ∧ validateMotorMessage now j = .ok mo) := by
  refine ⟨?_, ?_, ?_, ?_, ?_, ?_⟩
  · intro now j e h; simp [parse_message_json, h]
  · intro now j m h
    cases hv : validateSensorMessage now j with
    | ok s =>
      simp only [parse_message_json, hv, exceptMap_ok, Except.ok.injEq] at h
      exact ⟨s, h.symm, rfl⟩
    | error e =>
      simp only [parse_message_json, hv, exceptMap_error] at h
      exact Except.noConfusion h
  · intro now j e h; simp [parse_message_json, h]
  · intro now j m h
    cases hv : validateDisplayMessage now j with
    | ok d =>
      simp only [parse_message_json, hv, exceptMap_ok, Except.ok.injEq] at h
      exact ⟨d, h.symm, rfl⟩
    | error e =>
      simp only [parse_message_json, hv, exceptMap_error] at h
      exact Except.noConfusion h
  · intro now j e h; simp [parse_message_json, h]
  · intro now j m h
    cases hv : validateMotorMessage now j with
    | ok mo =>
      simp only [parse_message_json, hv, exceptMap_ok, Except.ok.injEq] at h
      exact ⟨mo, h.symm, rfl⟩
    | error e =>
      simp only [parse_message_json, hv, exceptMap_error] at h
      exact Except.noConfusion h

/-- Witness for C4: a frame that is a perfectly valid motor envelope is
rejected when `expected_kind = sensor` — no fallback to the kind it would
validate against. -/
theorem c4_witness :
    parse_message_json ⟨2026, 1, 1, 0, 0, 0⟩
      (encodeMotorMessage ⟨"motor-1", ⟨2026, 10, 12, 14, 30, 0⟩, false, "fold"⟩)
      .sensor = .error "missing required field sender_name" :=
  c4_explicit_kind_no_fallback.1 ⟨2026, 1, 1, 0, 0, 0⟩ _ _ (by rfl)

/-- C5 counterexample: encoding a `MotorMessage` renders the timestamp in
ISO form with seconds (`"2026-10-12T14:30:30"`), not as the
minute-precision `"YYYY-MM-DD HH:MM"` string (which would here be
`"2026-10-12 14:30"`): only `SensorMessage` declares the minute
serializer. -/
theorem c5_timestamp_render_counterexample :
    lookupField "timestamp"
      (encodeMotorMessage
        ⟨"motor-1", ⟨2026, 10, 12, 14, 30, 30⟩, false, "fold"⟩).getFields =
      some (Json.str "2026-10-12T14:30:30") ∧
    ("2026-10-12T14:30:30" : String) ≠ "2026-10-12 14:30" :=
  ⟨rfl, by decide⟩

/-- C5 as amended: `SensorMessage` renders `timestamp` as the
minute-precision `"YYYY-MM-DD HH:MM"` string (independent of the seconds),
while `DisplayMessage` and `MotorMessage` render it as the ISO string with
seconds. -/
theorem c5_timestamp_render_amended :
    (∀ m : SensorMessage, lookupField "timestamp"
        (encodeSensorMessage m).getFields =
        some (Json.str (String.mk (renderTimestampMinute m.timestamp)))) ∧
    (∀ dt, renderTimestampMinute dt = renderTimestampMinute (truncToMinute dt)) ∧
    String.mk (renderTimestampMinute ⟨2026, 10, 12, 14, 30, 30⟩) =
      "2026-10-12 14:30" ∧
    (∀ m : DisplayMessage, lookupField "timestamp"
        (encodeDisplayMessage m).getFields =
        some (Json.str (String.mk (renderTimestampIso m.timestamp)))) ∧
    (∀ m : MotorMessage, lookupField "timestamp"
        (encodeMotorMessage m).getFields =
        some (Json.str (String.mk (renderTimestampIso m.timestamp)))) ∧
    String.mk (renderTimestampIso ⟨2026, 10, 12, 14, 30, 30⟩) =
      "2026-10-12T14:30:30" :=
  ⟨fun _ => rfl, fun _ => rfl, rfl, fun _ => rfl, fun _ => rfl, rfl⟩

/-- C3 counterexample: `AsyncBasePublisher.send` keeps no sequence
counter and never stamps `sequence_no` — it is a stateless function of
the message alone, so every one of three successive calls with the same
zero-sentinel message delivers a frame whose `sequence_no` is 0; the
second call's frame carries 0, not 1 as the claim requires of the
concurrent variant. -/
theorem c3_sequence_counterexample :
    (AsyncBasePublisher.send
        (.sensor ⟨"s1", none, ⟨2026, 10, 12, 14, 30, 0⟩, "sensor",
          .heartbeat ⟨"Active", 0⟩, 0⟩) none).1 =
      some (encodeSensorMessage
        ⟨"s1", none, ⟨2026, 10, 12, 14, 30, 0⟩, "sensor",
          .heartbeat ⟨"Active", 0⟩, 0⟩) ∧
    lookupField "sequence_no"
      (encodeSensorMessage
        ⟨"s1", none, ⟨2026, 10, 12, 14, 30, 0⟩, "sensor",
          .heartbeat ⟨"Active", 0⟩, 0⟩).getFields = some (Json.num 0) ∧
    (0 : ℚ) ≠ 1 :=
  ⟨rfl, rfl, by decide⟩

/-- C3 as amended: on the synchronous `BasePublisher`, three successive
`send` calls with zero-sentinel messages stamp and deliver `sequence_no`
0, 1, 2 in order; the concurrent `AsyncBasePublisher.send` does not
implement sequence assignment and delivers every zero-sentinel message
with `sequence_no` 0. -/
theorem c3_sequence_amended :
    ∀ s1 s2 s3 : SensorMessage,
      s1.sequence_no = 0 → s2.sequence_no = 0 → s3.sequence_no = 0 →
      (BasePublisher.send ⟨0⟩ (.sensor s1) none).message =
          .sensor { s1 with sequence_no := 0 } ∧
      (BasePublisher.send ⟨0⟩ (.sensor s1) none).sent =
          some (encodeSensorMessage { s1 with sequence_no := 0 }) ∧
      (BasePublisher.send
          (BasePublisher.send ⟨0⟩ (.sensor s1) none).state
          (.sensor s2) none).message = .sensor { s2 with sequence_no := 1 } ∧
      (BasePublisher.send
          (BasePublisher.send ⟨0⟩ (.sensor s1) none).state
          (.sensor s2) none).sent =
          some (encodeSensorMessage { s2 with sequence_no := 1 }) ∧
      (BasePublisher.send
          (BasePublisher.send
            (BasePublisher.send ⟨0⟩ (.sensor s1) none).state
            (.sensor s2) none).state
          (.sensor s3) none).message = .sensor { s3 with sequence_no := 2 } ∧
      (BasePublisher.send
          (BasePublisher.send
            (BasePublisher.send ⟨0⟩ (.sensor s1) none).state
            (.sensor s2) none).state
          (.sensor s3) none).sent =
          some (encodeSensorMessage { s3 with sequence_no := 2 }) ∧
      (AsyncBasePublisher.send (.sensor s1) none).1 =
          some (encodeSensorMessage s1) := by
  intro s1 s2 s3 h1 h2 h3
  simp [BasePublisher.send, AsyncBasePublisher.send, encodeMessage, h1, h2, h3]

/-- Witness for C3: the three stamped sequence numbers on a concrete run
of the synchronous publisher. -/
theorem c3_witness :
    (BasePublisher.send ⟨0⟩
        (.sensor ⟨"s1", none, ⟨2026, 10, 12, 14, 30, 0⟩, "sensor",
          .heartbeat ⟨"Active", 0⟩, 0⟩) none).message =
      .sensor ⟨"s1", none, ⟨2026, 10, 12, 14, 30, 0⟩, "sensor",
        .heartbeat ⟨"Active", 0⟩, 0⟩ ∧
    (BasePublisher.send
        (BasePublisher.send ⟨0⟩
          (.sensor ⟨"s1", none, ⟨2026, 10, 12, 14, 30, 0⟩, "sensor",
            .heartbeat ⟨"Active", 0⟩, 0⟩) none).state
        (.sensor ⟨"s2", none, ⟨2026, 10, 12, 14, 30, 0⟩, "sensor",
          .heartbeat ⟨"Active", 0⟩, 0⟩) none).message =
      .sensor ⟨"s2", none, ⟨2026, 10, 12, 14, 30, 0⟩, "sensor",
        .heartbeat ⟨"Active", 0⟩, 1⟩ := by
  have h := c3_sequence_amended
    ⟨"s1", none, ⟨2026, 10, 12, 14, 30, 0⟩, "sensor", .heartbeat ⟨"Active", 0⟩, 0⟩
    ⟨"s2", none, ⟨2026, 10, 12, 14, 30, 0⟩, "sensor", .heartbeat ⟨"Active", 0⟩, 0⟩
    ⟨"s3", none, ⟨2026, 10, 12, 14, 30, 0⟩, "sensor", .heartbeat ⟨"Active", 0⟩, 0⟩
    rfl rfl rfl
  exact ⟨h.1, h.2.2.1⟩

/-- C10: when `send_raw` raises during a synchronous `send`, `_seq_no` is
left unchanged (it is incremented only after `send_raw` returns), nothing
is delivered, and the exception is re-raised unchanged; the failed call
had stamped the sentinel message with `_seq_no`, and the next successful
`send` of a fresh sentinel message stamps that same number. -/
theorem c10_send_failure_seq :
    (∀ (st : BasePublisher) (msg : SupportedMessage) (e : String),
        (BasePublisher.send st msg (some e)).state = st ∧
        (BasePublisher.send st msg (some e)).sent = none ∧
        (BasePublisher.send st msg (some e)).error = some e) ∧
    (∀ (st : BasePublisher) (s : SensorMessage) (e : String),
        s.sequence_no = 0 →
        (BasePublisher.send st (.sensor s) (some e)).message =
          .sensor { s with sequence_no := st.seq_no }) ∧
    (∀ (st : BasePublisher) (s : SensorMessage),
        s.sequence_no = 0 →
        (BasePublisher.send st (.sensor s) none).message =
          .sensor { s with sequence_no := st.seq_no } ∧
        (BasePublisher.send st (.sensor s) none).state.seq_no =
          st.seq_no + 1) := by
  refine ⟨?_, ?_, ?_⟩
  · intro st msg e
    cases msg <;> simp [BasePublisher.send]
  · intro st s e h; simp [BasePublisher.send, h]
  · intro st s h; simp [BasePublisher.send, h]

/-- Witness for C10: a failed send from `_seq_no = 5` leaves the counter
at 5, stamps the message with 5, re-raises the error, and the next
successful send stamps 5 again. -/
theorem c10_witness :
    (BasePublisher.send ⟨5⟩
        (.sensor ⟨"s1", none, ⟨2026, 10, 12, 14, 30, 0⟩, "sensor",
          .heartbeat ⟨"Active", 0⟩, 0⟩) (some "ZMQError")).state = ⟨5⟩ ∧
    (BasePublisher.send ⟨5⟩
        (.sensor ⟨"s1", none, ⟨2026, 10, 12, 14, 30, 0⟩, "sensor",
          .heartbeat ⟨"Active", 0⟩, 0⟩) (some "ZMQError")).error =
      some "ZMQError" ∧
    (BasePublisher.send ⟨5⟩
        (.sensor ⟨"s2", none, ⟨2026, 10, 12, 14, 30, 0⟩, "sensor",
          .heartbeat ⟨"Active", 0⟩, 0⟩) none).message =
      .sensor ⟨"s2", none, ⟨2026, 10, 12, 14, 30, 0⟩, "sensor",
        .heartbeat ⟨"Active", 0⟩, 5⟩ := by
  refine ⟨(c10_send_failure_seq.1 ⟨5⟩ _ "ZMQError").1,
    (c10_send_failure_seq.1 ⟨5⟩
      (.sensor ⟨"s1", none, ⟨2026, 10, 12, 14, 30, 0⟩, "sensor",
        .heartbeat ⟨"Active", 0⟩, 0⟩) "ZMQError").2.2,
    (c10_send_failure_seq.2.2 ⟨5⟩
      ⟨"s2", none, ⟨2026, 10, 12, 14, 30, 0⟩, "sensor",
        .heartbeat ⟨"Active", 0⟩, 0⟩ rfl).1⟩

/-- C8: a received frame that begins with a left brace after stripping
leading whitespace is returned unchanged; otherwise, when the frame
splits at its first space and the remainder begins with a left brace
after stripping leading whitespace, the remainder alone is returned; in
every other case the frame is returned unchanged. -/
theorem c8_unwrap_topic_cases :
    ∀ raw : List Char,
      (startsWithLbrace (lstripChars raw) = true →
        unwrap_topic_prefixed_payload raw = raw) ∧
      (startsWithLbrace (lstripChars raw) = false →
        ∀ t rest, splitFirst (fun c => c = ' ') raw = some (t, rest) →
          (startsWithLbrace (lstripChars rest) = true →
            unwrap_topic_prefixed_payload raw = rest) ∧
          (startsWithLbrace (lstripChars rest) = false →
            unwrap_topic_prefixed_payload raw = raw)) ∧
      (splitFirst (fun c => c = ' ') raw = none →
        unwrap_topic_prefixed_payload raw = raw) := by
  intro raw
  refine ⟨?_, ?_, ?_⟩
  · intro h; simp [unwrap_topic_prefixed_payload, h]
  · intro h t rest hsplit
    constructor
    · intro hb
      simp [unwrap_topic_prefixed_payload, h, hsplit, hb]
    · intro hb
      simp [unwrap_topic_prefixed_payload, h, hsplit, hb]
  · intro hnone
    unfold unwrap_topic_prefixed_payload
    rw [hnone]
    simp

/-- Witness for C8: `"sensor \x7bmsg\x7d"` splits at its first space and
the remainder begins with a brace, so the remainder alone is returned. -/
theorem c8_witness :
    unwrap_topic_prefixed_payload "sensor \x7bmsg\x7d".data =
      "\x7bmsg\x7d".data :=
  ((c8_unwrap_topic_cases "sensor \x7bmsg\x7d".data).2.1 (by rfl)
    "sensor".data "\x7bmsg\x7d".data (by rfl)).1 (by rfl)

/-- C9: every factory rejects a shared context whose concurrency kind
does not match the requested publisher/subscriber kind with a
`TypeError`, before any adapter (hence any socket) is constructed; an
absent or matching-kind context is accepted, and the adapter it yields
holds no socket yet (sockets are created only on connect). -/
theorem c9_factory_context_kind :
    (∀ e ic hwm, get_publisher (.zmq e ic (some ⟨.asyncio⟩) hwm) =
        .error "ZmqPubOptions.context must be zmq.Context for sync publisher.") ∧
    (∀ e ic hwm, get_async_publisher (.zmq e ic (some ⟨.sync⟩) hwm) =
        .error
          "ZmqPubOptions.context must be zmq.asyncio.Context for async publisher.") ∧
    (∀ e ts ib et hwm, get_subscriber (.zmq e ts ib et hwm (some ⟨.asyncio⟩)) =
        .error "ZmqSubOptions.context must be zmq.Context for sync subscriber.") ∧
    (∀ e ts ib et hwm,
        get_async_subscriber (.zmq e ts ib et hwm (some ⟨.sync⟩)) =
        .error
          "ZmqSubOptions.context must be zmq.asyncio.Context for async subscriber.") ∧
    (∀ e ic hwm, get_publisher (.zmq e ic none hwm) =
        .ok (mkZmqPublisher e ic none hwm) ∧
      get_publisher (.zmq e ic (some ⟨.sync⟩) hwm) =
        .ok (mkZmqPublisher e ic (some ⟨.sync⟩) hwm) ∧
      (mkZmqPublisher e ic (some ⟨.sync⟩) hwm).socket = none) ∧
    (∀ e ic hwm, get_async_publisher (.zmq e ic none hwm) =
        .ok (mkZmqPublisher e ic none hwm) ∧
      get_async_publisher (.zmq e ic (some ⟨.asyncio⟩) hwm) =
        .ok (mkZmqPublisher e ic (some ⟨.asyncio⟩) hwm) ∧
      (mkZmqPublisher e ic (some ⟨.asyncio⟩) hwm).socket = none) ∧
    (∀ e ts ib et hwm, get_subscriber (.zmq e ts ib et hwm none) =
        .ok (mkZmqSubscriber e ib (some ts) et none hwm) ∧
      get_subscriber (.zmq e ts ib et hwm (some ⟨.sync⟩)) =
        .ok (mkZmqSubscriber e ib (some ts) et (some ⟨.sync⟩) hwm) ∧
      (mkZmqSubscriber e ib (some ts) et (some ⟨.sync⟩) hwm).socket = none) ∧
    (∀ e ts ib et hwm, get_async_subscriber (.zmq e ts ib et hwm none) =
        .ok (mkZmqSubscriber e ib (some ts) et none hwm) ∧
      get_async_subscriber (.zmq e ts ib et hwm (some ⟨.asyncio⟩)) =
        .ok (mkZmqSubscriber e ib (some ts) et (some ⟨.asyncio⟩) hwm) ∧
      (mkZmqSubscriber e ib (some ts) et (some ⟨.asyncio⟩) hwm).socket =
        none) := by
  refine ⟨fun e ic hwm => rfl, fun e ic hwm => rfl, fun e ts ib et hwm => rfl,
    fun e ts ib et hwm => rfl, fun e ic hwm => ⟨rfl, rfl, rfl⟩,
    fun e ic hwm => ⟨rfl, rfl, rfl⟩, fun e ts ib et hwm => ⟨rfl, rfl, rfl⟩,
    fun e ts ib et hwm => ⟨rfl, rfl, rfl⟩⟩

theorem pubCloseBody_borrower (st : PubAdapterState)
    (h : st.is_own_context = false) :
    Effect.ctxTerm ∉ (pubCloseBody st).2 ∧
      (pubCloseBody st).1.ctx = st.ctx ∧
      (pubCloseBody st).1.socket = none ∧
      (st.socket.isSome → Effect.socketClose ∈ (pubCloseBody st).2) := by
  unfold pubCloseBody
  cases hs : st.socket <;> simp [h, hs]

theorem pubCloseBody_owner (st : PubAdapterState)
    (h1 : st.is_own_context = true) (h2 : st.ctx.isSome) :
    Effect.ctxTerm ∈ (pubCloseBody st).2 ∧ (pubCloseBody st).1.ctx = none := by
  unfold pubCloseBody
  cases hs : st.socket <;> simp [h1, h2, hs]

theorem subCloseBody_borrower (st : SubAdapterState)
    (h : st.is_own_context = false) :
    Effect.ctxTerm ∉ (subCloseBody st).2 ∧
      (subCloseBody st).1.ctx = st.ctx ∧
      (subCloseBody st).1.socket = none ∧
      (st.socket.isSome → Effect.socketClose ∈ (subCloseBody st).2) := by
  unfold subCloseBody
  cases hs : st.socket <;> simp [h, hs]

theorem subCloseBody_owner (st : SubAdapterState)
    (h1 : st.is_own_context = true) (h2 : st.ctx.isSome) :
    Effect.ctxTerm ∈ (subCloseBody st).2 ∧ (subCloseBody st).1.ctx = none := by
  unfold subCloseBody
  cases hs : st.socket <;> simp [h1, h2, hs]

/-- C6: an adapter constructed with an externally supplied context is a
borrower (`is_own_context = false`) and its `close` closes the socket but
never terminates the shared context (which it keeps holding); an adapter
constructed without one is the owner, and when it holds a (lazily
created) context, `close` terminates it.  Holds for the synchronous and
asynchronous publisher and subscriber alike. -/
theorem c6_close_ownership :
    (∀ e ic c hwm, (mkZmqPublisher e ic (some c) hwm).is_own_context = false) ∧
    (∀ e ib ts et c hwm,
        (mkZmqSubscriber e ib ts et (some c) hwm).is_own_context = false) ∧
    (∀ e ic hwm, (mkZmqPublisher e ic none hwm).is_own_context = true) ∧
    (∀ e ib ts et hwm,
        (mkZmqSubscriber e ib ts et none hwm).is_own_context = true) ∧
    (∀ st : PubAdapterState, st.is_own_context = false →
        Effect.ctxTerm ∉ (ZmqPublisher.close st).2 ∧
        (ZmqPublisher.close st).1.ctx = st.ctx ∧
        (ZmqPublisher.close st).1.socket = none ∧
        (st.socket.isSome → Effect.socketClose ∈ (ZmqPublisher.close st).2) ∧
        Effect.ctxTerm ∉ (AsyncZmqPublisher.close st).2) ∧
    (∀ st : SubAdapterState, st.is_own_context = false →
        Effect.ctxTerm ∉ (ZmqSubscriber.close st).2 ∧
        (ZmqSubscriber.close st).1.ctx = st.ctx ∧
        (ZmqSubscriber.close st).1.socket = none ∧
        (st.socket.isSome → Effect.socketClose ∈ (ZmqSubscriber.close st).2) ∧
        Effect.ctxTerm ∉ (AsyncZmqSubscriber.close st).2) ∧
    (∀ st : PubAdapterState, st.is_own_context = true → st.ctx.isSome →
        Effect.ctxTerm ∈ (ZmqPublisher.close st).2 ∧
        (ZmqPublisher.close st).1.ctx = none ∧
        Effect.ctxTerm ∈ (AsyncZmqPublisher.close st).2) ∧
    (∀ st : SubAdapterState, st.is_own_context = true → st.ctx.isSome →
        Effect.ctxTerm ∈ (ZmqSubscriber.close st).2 ∧
        (ZmqSubscriber.close st).1.ctx = none ∧
        Effect.ctxTerm ∈ (AsyncZmqSubscriber.close st).2) := by
  refine ⟨fun _ _ _ _ => rfl, fun _ _ _ _ _ _ => rfl, fun _ _ _ => rfl,
    fun _ _ _ _ _ => rfl, ?_, ?_, ?_, ?_⟩
  · intro st h
    obtain ⟨a, b, c, d⟩ := pubCloseBody_borrower st h
    exact ⟨a, b, c, d, a⟩
  · intro st h
    obtain ⟨a, b, c, d⟩ := subCloseBody_borrower st h
    exact ⟨a, b, c, d, a⟩
  · intro st h1 h2
    obtain ⟨a, b⟩ := pubCloseBody_owner st h1 h2
    exact ⟨a, b, a⟩
  · intro st h1 h2
    obtain ⟨a, b⟩ := subCloseBody_owner st h1 h2
    exact ⟨a, b, a⟩

/-- Witness for C6: closing a borrower publisher (shared sync context,
live socket) closes the socket and leaves the context untouched; closing
an owner that holds its lazily created context terminates it. -/
theorem c6_witness :
    Effect.ctxTerm ∉
      (ZmqPublisher.close
        { mkZmqPublisher "tcp://localhost:5555" true (some ⟨.sync⟩) 1000 with
            socket := some false }).2 ∧
    Effect.ctxTerm ∈
      (ZmqPublisher.close
        { mkZmqPublisher "tcp://localhost:5555" true none 1000 with
            ctx := some ⟨.sync⟩, socket := some false }).2 :=
  ⟨(c6_close_ownership.2.2.2.2.1
      { mkZmqPublisher "tcp://localhost:5555" true (some ⟨.sync⟩) 1000 with
          socket := some false } (by rfl)).1,
    (c6_close_ownership.2.2.2.2.2.2.1
      { mkZmqPublisher "tcp://localhost:5555" true none 1000 with
          ctx := some ⟨.sync⟩, socket := some false } (by rfl) (by rfl)).1⟩

/-- C7 counterexample: a synchronous subscriber whose socket is already
live, asked to `connect` again, does not log a warning and does not
return unchanged — it re-issues the bind and the topic subscription
(there is no early return in `ZmqSubscriber.connect`). -/
theorem c7_connect_idempotent_counterexample :
    ZmqSubscriber.connect
      { mkZmqSubscriber "tcp://localhost:5555" true (some ["sensor"]) .auto
          none 1000 with socket := some false } false =
      ({ mkZmqSubscriber "tcp://localhost:5555" true (some ["sensor"]) .auto
          none 1000 with socket := some false },
        [Effect.bindEp "tcp://localhost:5555", Effect.subscribe "sensor"],
        none) ∧
    Effect.logWarn ∉
      [Effect.bindEp "tcp://localhost:5555", Effect.subscribe "sensor"] :=
  ⟨rfl, by decide⟩

/-- C7 as amended: the publisher adapters (synchronous and asynchronous)
are idempotent — a second `_connect_impl` on a live socket logs a warning
and returns with the state unchanged and no transport calls; the
subscriber adapters have no such early return: `connect` on a live socket
skips socket re-creation but re-issues `bind`/`connect` and every topic
subscription, and logs no warning. -/
theorem c7_connect_idempotent_amended :
    (∀ (st : PubAdapterState) (f : Bool), socketLive st.socket = true →
        ZmqPublisher.connectImpl st f = (st, [Effect.logWarn], none) ∧
        AsyncZmqPublisher.connectImpl st f = (st, [Effect.logWarn], none)) ∧
    (∀ st : SubAdapterState, socketLive st.socket = true →
        ZmqSubscriber.connect st false =
          (st, (if st.is_bind then Effect.bindEp st.endpoint
              else Effect.connectEp st.endpoint) ::
            st.topics.map Effect.subscribe, none) ∧
        AsyncZmqSubscriber.connect st false =
          (st, (if st.is_bind then Effect.bindEp st.endpoint
              else Effect.connectEp st.endpoint) ::
            st.topics.map Effect.subscribe, none) ∧
        Effect.logWarn ∉ (ZmqSubscriber.connect st false).2.1) := by
  constructor
  · intro st f h
    constructor <;>
      simp [ZmqPublisher.connectImpl, AsyncZmqPublisher.connectImpl,
        pubConnectBody, h]
  · intro st h
    have hsub : subConnectBody .sync st false =
        (st, (if st.is_bind then Effect.bindEp st.endpoint
            else Effect.connectEp st.endpoint) ::
          st.topics.map Effect.subscribe, none) := by
      simp [subConnectBody, h]
    have hsub2 : subConnectBody .asyncio st false =
        (st, (if st.is_bind then Effect.bindEp st.endpoint
            else Effect.connectEp st.endpoint) ::
          st.topics.map Effect.subscribe, none) := by
      simp [subConnectBody, h]
    refine ⟨hsub, hsub2, ?_⟩
    show Effect.logWarn ∉ (subConnectBody .sync st false).2.1
    rw [hsub]
    simp only [List.mem_cons, List.mem_map, not_or]
    refine ⟨?_, ?_⟩
    · cases hib : st.is_bind <;> simp
    · rintro ⟨t, -, habs⟩
      exact Effect.noConfusion habs

/-- Witness for C7: a live synchronous publisher adapter warned and left
unchanged by a repeated `_connect_impl`. -/
theorem c7_witness :
    ZmqPublisher.connectImpl
      { mkZmqPublisher "tcp://localhost:5555" true none 1000 with
          ctx := some ⟨.sync⟩, socket := some false } false =
      ({ mkZmqPublisher "tcp://localhost:5555" true none 1000 with
          ctx := some ⟨.sync⟩, socket := some false },
        [Effect.logWarn], none) :=
  (c7_connect_idempotent_amended.1
    { mkZmqPublisher "tcp://localhost:5555" true none 1000 with
        ctx := some ⟨.sync⟩, socket := some false } false (by rfl)).1

end WheelChock
